import Mathlib

set_option maxRecDepth 8000

/-!
Shallow embedding of the bench-server repository (src/main.rs): a minimal
HTTP/HTTPS benchmark server.  The embedding covers the configuration
resolver (CLI flag / environment variable / default precedence), the
startup sequence of `main` (worker and connection setters, the plaintext
bind, the TLS-material loading and the TLS bind) as an effect trace, and
the five constant route handlers with their response bodies.
-/

namespace BenchServer

/-! Constants from src/main.rs lines 14-18. -/

def DEFAULT_IP : String := "0.0.0.0"
def DEFAULT_PORT : Nat := 3000
def DEFAULT_KEY_FILE : String := "key.pem"
def DEFAULT_CERT_FILE : String := "cert.pem"
def DEFAULT_CONNECTIONS : Nat := 25 * 1024

/-- Largest value of the Rust type u16. -/
def U16_LIMIT : Nat := 65535

/-- Largest value of the Rust type usize on a 64-bit platform. -/
def USIZE_LIMIT : Nat := 2 ^ 64 - 1

/-- Numeric value of a list of ASCII digit characters, most significant first. -/
def digitsVal (ds : List Char) : Nat :=
  ds.foldl (fun acc c => acc * 10 + (c.toNat - 48)) 0

/-- Rust `str::parse` for an unsigned integer type with maximum `limit`:
an optional leading plus sign, then one or more ASCII digits, and the
value must fit in the type; anything else is an error. -/
def parseUInt (limit : Nat) (s : String) : Except String Nat :=
  let cs := s.toList
  let ds := match cs with
    | '+' :: rest => rest
    | _ => cs
  match ds with
  | [] => Except.error "cannot parse integer from empty string"
  | _ :: _ =>
    if ds.all Char.isDigit then
      if digitsVal ds ≤ limit then Except.ok (digitsVal ds)
      else Except.error "number too large to fit in target type"
    else Except.error "invalid digit found in string"

/-- Rust `port.parse::<u16>()`. -/
def parseU16 : String → Except String Nat := parseUInt U16_LIMIT

/-- Rust `s.parse::<usize>()`. -/
def parseUsize : String → Except String Nat := parseUInt USIZE_LIMIT

/-- The result of clap argument matching: `matches.value_of(name)` for each
of the seven registered arguments (src/main.rs lines 29-67). -/
structure Flags where
  key : Option String
  cert : Option String
  ip : Option String
  port : Option String
  https : Option String
  workers : Option String
  max_connections : Option String
deriving DecidableEq

/-- The flag set with no argument supplied on the command line. -/
def Flags.none_ : Flags :=
  ⟨none, none, none, none, none, none, none⟩

/-- Environment as seen by `dotenv::var`: process environment merged with
an optional `.env` file; `none` means the variable is unset. -/
abbrev EnvMap := String → Option String

/-- The fully resolved configuration of `main` (src/main.rs lines 69-123). -/
structure Config where
  key_file : String
  cert_file : String
  server_ip : String
  http_port : Nat
  https_port : Nat
  workers : Nat
  connections : Nat
deriving DecidableEq

/-- src/main.rs lines 69-75: resolve the private key file path. -/
def resolve_key_file (m : Flags) (env : EnvMap) : String :=
  match m.key with
  | some file => file
  | none =>
    match env "KEY_FILE" with
    | some file => file
    | none => DEFAULT_KEY_FILE

/-- src/main.rs lines 77-83: resolve the certificate chain file path. -/
def resolve_cert_file (m : Flags) (env : EnvMap) : String :=
  match m.cert with
  | some file => file
  | none =>
    match env "CERT_FILE" with
    | some file => file
    | none => DEFAULT_CERT_FILE

/-- src/main.rs lines 85-91: resolve the bind IP. -/
def resolve_server_ip (m : Flags) (env : EnvMap) : String :=
  match m.ip with
  | some ip => ip
  | none =>
    match env "SERVER_IP" with
    | some ip => ip
    | none => DEFAULT_IP

/-- src/main.rs lines 93-99: resolve the HTTP port (parse failures
propagate out of `main` through `?`). -/
def resolve_http_port (m : Flags) (env : EnvMap) : Except String Nat :=
  match m.port with
  | some port => parseU16 port
  | none =>
    match env "HTTP_PORT" with
    | some port => parseU16 port
    | none => Except.ok DEFAULT_PORT

/-- src/main.rs lines 101-107: resolve the HTTPS port, default 0. -/
def resolve_https_port (m : Flags) (env : EnvMap) : Except String Nat :=
  match m.https with
  | some port => parseU16 port
  | none =>
    match env "HTTPS_PORT" with
    | some port => parseU16 port
    | none => Except.ok 0

/-- src/main.rs lines 109-115: resolve the worker count, default 0. -/
def resolve_workers (m : Flags) (env : EnvMap) : Except String Nat :=
  match m.workers with
  | some workers => parseUsize workers
  | none =>
    match env "WORKERS" with
    | some workers => parseUsize workers
    | none => Except.ok 0

/-- src/main.rs lines 117-123: resolve the max connections, default 25*1024. -/
def resolve_connections (m : Flags) (env : EnvMap) : Except String Nat :=
  match m.max_connections with
  | some connections => parseUsize connections
  | none =>
    match env "CONNECTIONS" with
    | some connections => parseUsize connections
    | none => Except.ok DEFAULT_CONNECTIONS

/-- The configuration phase of `main` (src/main.rs lines 69-123): the three
string fields cannot fail; the four numeric fields are resolved in source
order and the first parse failure aborts `main` with that error. -/
def resolveConfig (m : Flags) (env : EnvMap) : Except String Config :=
  match resolve_http_port m env with
  | Except.error e => Except.error e
  | Except.ok http_port =>
    match resolve_https_port m env with
    | Except.error e => Except.error e
    | Except.ok https_port =>
      match resolve_workers m env with
      | Except.error e => Except.error e
      | Except.ok workers =>
        match resolve_connections m env with
        | Except.error e => Except.error e
        | Except.ok connections =>
          Except.ok
            { key_file := resolve_key_file m env
              cert_file := resolve_cert_file m env
              server_ip := resolve_server_ip m env
              http_port := http_port
              https_port := https_port
              workers := workers
              connections := connections }

/-! Spec-side resolution, written from the words of the specification
(section 4.1): try the command-line flag, then the environment variable,
then the documented default, independently per field. -/

/-- Flag-then-env-then-default resolution for a string-valued field,
as the specification words it. -/
def specResolveStr (flag envVal : Option String) (dflt : String) : String :=
  match flag with
  | some v => v
  | none =>
    match envVal with
    | some v => v
    | none => dflt

/-- Flag-then-env-then-default resolution for a numeric field, as the
specification words it: whichever source is selected must parse. -/
def specResolveNum (parse : String → Except String Nat)
    (flag envVal : Option String) (dflt : Nat) : Except String Nat :=
  match flag with
  | some v => parse v
  | none =>
    match envVal with
    | some v => parse v
    | none => Except.ok dflt

/-- The source whose string a numeric field will try to parse: the flag if
present, otherwise the environment variable if set. -/
def effectiveSource (flag envVal : Option String) : Option String :=
  match flag with
  | some v => some v
  | none => envVal

/-- Whether an `Except` value is a success. -/
def exceptOk {α : Type} : Except String α → Bool
  | Except.ok _ => true
  | Except.error _ => false

/-! The startup sequence of `main` after configuration (src/main.rs lines
125-174), modelled as an effect trace over an abstract file system. -/

/-- One PEM section of a file: a tag (the text after BEGIN/END) and the
decoded DER bytes. -/
structure PemBlock where
  tag : String
  data : List Nat
deriving DecidableEq

/-- What the file system holds at a path: the file may be absent
(`File::open` fails), present but not parseable as PEM, or a sequence of
PEM sections. -/
inductive FileContent where
  | missing : FileContent
  | malformed : FileContent
  | pem : List PemBlock → FileContent
deriving DecidableEq

/-- An abstract file system, one `FileContent` per path. -/
abbrev FileSystem := String → FileContent

/-- Modelled from the rustls-pemfile crate (an external dependency):
`certs` keeps exactly the PEM sections whose tag is CERTIFICATE, in file
order. -/
def certsOf (blocks : List PemBlock) : List (List Nat) :=
  (blocks.filter (fun b => b.tag = "CERTIFICATE")).map PemBlock.data

/-- Modelled from the rustls-pemfile crate (an external dependency):
`pkcs8_private_keys` keeps exactly the PEM sections whose tag is
PRIVATE KEY (the PKCS#8 tag), in file order; sections with other tags,
such as RSA PRIVATE KEY (PKCS#1) or EC PRIVATE KEY (SEC1), are skipped. -/
def pkcs8_private_keys (blocks : List PemBlock) : List (List Nat) :=
  (blocks.filter (fun b => b.tag = "PRIVATE KEY")).map PemBlock.data

/-- Reading the PEM sections of an already-opened file (src/main.rs lines
159-160): fails if the content is not parseable PEM. -/
def pemSections : FileContent → Except String (List PemBlock)
  | FileContent.pem blocks => Except.ok blocks
  | _ => Except.error "could not parse PEM data"

/-- The rustls server configuration built in src/main.rs line 166-168:
`with_no_client_auth` then `with_single_cert cert_chain key`. -/
structure TlsServerConfig where
  clientAuthRequired : Bool
  certChain : List (List Nat)
  privateKey : List Nat
deriving DecidableEq

/-- The settings applied to the actix `HttpServer` builder before binding
(src/main.rs lines 129-137): `none` means the setter was never called and
the runtime default applies. -/
structure ServerBuilder where
  workersSetting : Option Nat := none
  maxConnectionsSetting : Option Nat := none
deriving DecidableEq

/-- Externally visible startup actions of `main`, in order. `bindHttp` and
`bindTls` record a successfully bound listener; `openFile` records a
`File::open` attempt. -/
inductive Effect where
  | bindHttp : String → Effect
  | openFile : String → Effect
  | bindTls : String → Effect
  | runServer : Effect
deriving DecidableEq

/-- Whether an effect is a `File::open` attempt. -/
def Effect.isOpen : Effect → Bool
  | Effect.openFile _ => true
  | _ => false

/-- Whether an effect is a bound TLS listener. -/
def Effect.isTlsBind : Effect → Bool
  | Effect.bindTls _ => true
  | _ => false

/-- Whether an effect is a bound plaintext listener. -/
def Effect.isHttpBind : Effect → Bool
  | Effect.bindHttp _ => true
  | _ => false

/-- Whether an effect is the server entering its serving loop. -/
def Effect.isRun : Effect → Bool
  | Effect.runServer => true
  | _ => false

/-- Outcome of one run of `main`: the effect trace, the builder settings
applied, the process result (`Except.error` makes the process exit
non-zero), and the TLS server context if one was constructed. -/
structure MainResult where
  effects : List Effect
  builder : ServerBuilder
  outcome : Except String Unit
  tlsConfig : Option TlsServerConfig

/-- src/main.rs lines 125-174, after `resolveConfig`: apply the worker and
max-connection setters when strictly positive, bind the plaintext
listener, and, when the HTTPS port is non-zero, open and parse the
certificate and key files, require at least one PKCS#8 key, build the TLS
context from the first key and bind the TLS listener. `bindOk` abstracts
whether the operating system accepts a bind on a given address. -/
def runMain (m : Flags) (env : EnvMap) (fs : FileSystem)
    (bindOk : String → Bool) : MainResult :=
  match resolveConfig m env with
  | Except.error e => ⟨[], {}, Except.error e, none⟩
  | Except.ok cfg =>
    let b1 : ServerBuilder := {}
    let b2 := if cfg.workers > 0 then
        { b1 with workersSetting := some cfg.workers } else b1
    let builder := if cfg.connections > 0 then
        { b2 with maxConnectionsSetting := some cfg.connections } else b2
    let http_address := cfg.server_ip ++ ":" ++ toString cfg.http_port
    if bindOk http_address then
      if cfg.https_port = 0 then
        ⟨[Effect.bindHttp http_address, Effect.runServer], builder,
          Except.ok (), none⟩
      else
        let https_address := cfg.server_ip ++ ":" ++ toString cfg.https_port
        let e1 := [Effect.bindHttp http_address, Effect.openFile cfg.cert_file]
        if fs cfg.cert_file = FileContent.missing then
          ⟨e1, builder, Except.error "No such file or directory", none⟩
        else
          let e2 := e1 ++ [Effect.openFile cfg.key_file]
          if fs cfg.key_file = FileContent.missing then
            ⟨e2, builder, Except.error "No such file or directory", none⟩
          else
            match pemSections (fs cfg.cert_file) with
            | Except.error e => ⟨e2, builder, Except.error e, none⟩
            | Except.ok certBlocks =>
              match pemSections (fs cfg.key_file) with
              | Except.error e => ⟨e2, builder, Except.error e, none⟩
              | Except.ok keyBlocks =>
                let cert_chain := certsOf certBlocks
                match pkcs8_private_keys keyBlocks with
                | [] =>
                  ⟨e2, builder,
                    Except.error "Could not locate PKCS 8 private keys.", none⟩
                | k :: _ =>
                  let config : TlsServerConfig := ⟨false, cert_chain, k⟩
                  if bindOk https_address then
                    ⟨e2 ++ [Effect.bindTls https_address, Effect.runServer],
                      builder, Except.ok (), some config⟩
                  else
                    ⟨e2, builder, Except.error "could not bind TLS listener",
                      some config⟩
    else
      ⟨[], builder, Except.error "could not bind HTTP listener", none⟩

/-! The route handlers (src/main.rs lines 184-313).  Each handler is a
constant: it takes no input and returns the same response on every call. -/

/-- An HTTP response as a handler produces it: status code, the value of
the inserted content-type header, and the exact body bytes. -/
structure Response where
  status : Nat
  contentType : String
  body : String
deriving DecidableEq

/-- Body of the `index` handler (src/main.rs lines 188-202). -/
def indexBody : String :=
  "<!DOCTYPE html>\n<html>\n<head>\n\t<meta charset=\x27utf-8\x27>\n\t<title>HTTP(S) Benchmark Server</title>\n\t<link rel=\x27stylesheet\x27 type=\x27text/css\x27 media=\x27screen\x27 href=\x27main.css\x27>\n\t<script src=\x27main.js\x27></script>\n</head>\n<body>\n\t\n\t<div style=\"text-align:center;\">\n\t\t<H1>HTTP(S) Benchmark Server</H1>\n\t</div>\n</body>\n</html>"

/-- Body of the `bench_get` handler (src/main.rs lines 221-234). -/
def benchGetBody : String :=
  "\x7b\n\"args\": \x7b\x7d,\n\"headers\": \x7b\n\t\"Accept\": \"application/json\",\n\t\"Accept-Encoding\": \"gzip, deflate\",\n\t\"Accept-Language\": \"en-US,en;q=0.5\",\n\t\"Host\": \"www.httpbin.org\",\n\t\"Referer\": \"http://www.httpbin.org/\",\n\t\"User-Agent\": \"Mozilla/5.0 (Macintosh; Intel Mac OS X 10.14; rv:104.0) Gecko/20100101 Firefox/104.0\",\n\t\"X-Amzn-Trace-Id\": \"Root=1-632dce82-279a47540dd200b652a8cb02\"\n\x7d,\n\"origin\": \"113.200.214.222\",\n\"url\": \"http://www.httpbin.org/get\"\n\x7d"

/-- Body of the `bench_post` handler (src/main.rs lines 241-260). -/
def benchPostBody : String :=
  "\x7b\n\t\"args\": \x7b\x7d,\n\t\"data\": \"\",\n\t\"files\": \x7b\x7d,\n\t\"form\": \x7b\x7d,\n\t\"headers\": \x7b\n\t\t\"Accept\": \"application/json\",\n\t\t\"Accept-Encoding\": \"gzip, deflate\",\n\t\t\"Accept-Language\": \"zh-cn\",\n\t\t\"Content-Length\": \"0\",\n\t\t\"Host\": \"httpbin.org\",\n\t\t\"Origin\": \"http://httpbin.org\",\n\t\t\"Referer\": \"http://httpbin.org/\",\n\t\t\"User-Agent\": \"Mozilla/5.0 (Macintosh; Intel Mac OS X 10_14_6) AppleWebKit/605.1.15 (KHTML, like Gecko) Version/14.1.2 Safari/605.1.15\",\n\t\t\"X-Amzn-Trace-Id\": \"Root=1-632dd138-2243642a76ba30163e857a96\"\n\t\x7d,\n\t\"json\": null,\n\t\"origin\": \"113.200.214.222\",\n\t\"url\": \"http://httpbin.org/put\"\n\t\x7d"

/-- Body of the `bench_put` handler (src/main.rs lines 267-286). -/
def benchPutBody : String :=
  "\x7b\n\t\"args\": \x7b\x7d,\n\t\"data\": \"\",\n\t\"files\": \x7b\x7d,\n\t\"form\": \x7b\x7d,\n\t\"headers\": \x7b\n\t\t\"Accept\": \"application/json\",\n\t\t\"Accept-Encoding\": \"gzip, deflate\",\n\t\t\"Accept-Language\": \"zh-cn\",\n\t\t\"Content-Length\": \"0\",\n\t\t\"Host\": \"httpbin.org\",\n\t\t\"Origin\": \"http://httpbin.org\",\n\t\t\"Referer\": \"http://httpbin.org/\",\n\t\t\"User-Agent\": \"Mozilla/5.0 (Macintosh; Intel Mac OS X 10_14_6) AppleWebKit/605.1.15 (KHTML, like Gecko) Version/14.1.2 Safari/605.1.15\",\n\t\t\"X-Amzn-Trace-Id\": \"Root=1-632dd138-2243642a76ba30163e857a96\"\n\t\x7d,\n\t\"json\": null,\n\t\"origin\": \"113.200.214.222\",\n\t\"url\": \"http://httpbin.org/put\"\n\t\x7d"

/-- Body of the `bench_delete` handler (src/main.rs lines 293-312). -/
def benchDeleteBody : String :=
  "\x7b\n\t\"args\": \x7b\x7d,\n\t\"data\": \"\",\n\t\"files\": \x7b\x7d,\n\t\"form\": \x7b\x7d,\n\t\"headers\": \x7b\n\t\t\"Accept\": \"application/json\",\n\t\t\"Accept-Encoding\": \"gzip, deflate\",\n\t\t\"Accept-Language\": \"zh-cn\",\n\t\t\"Content-Length\": \"0\",\n\t\t\"Host\": \"httpbin.org\",\n\t\t\"Origin\": \"http://httpbin.org\",\n\t\t\"Referer\": \"http://httpbin.org/\",\n\t\t\"User-Agent\": \"Mozilla/5.0 (Macintosh; Intel Mac OS X 10_14_6) AppleWebKit/605.1.15 (KHTML, like Gecko) Version/14.1.2 Safari/605.1.15\",\n\t\t\"X-Amzn-Trace-Id\": \"Root=1-632dd138-2243642a76ba30163e857a96\"\n\t\x7d,\n\t\"json\": null,\n\t\"origin\": \"113.200.214.222\",\n\t\"url\": \"http://httpbin.org/put\"\n\t\x7d"

/-- src/main.rs lines 184-204: `HttpResponse::Ok()` with content type
`mime::TEXT_HTML_UTF_8` and the static HTML page. -/
def index : Response :=
  ⟨200, "text/html; charset=utf-8", indexBody⟩

/-- src/main.rs lines 217-235: `HttpResponse::Ok()` with content type
`mime::APPLICATION_JSON` and a fixed JSON document. -/
def bench_get : Response :=
  ⟨200, "application/json", benchGetBody⟩

/-- src/main.rs lines 237-261. -/
def bench_post : Response :=
  ⟨200, "application/json", benchPostBody⟩

/-- src/main.rs lines 263-287. -/
def bench_put : Response :=
  ⟨200, "application/json", benchPutBody⟩

/-- src/main.rs lines 289-313. -/
def bench_delete : Response :=
  ⟨200, "application/json", benchDeleteBody⟩

/-- The HTTP methods used by the registered routes. -/
inductive Method where
  | GET : Method
  | POST : Method
  | PUT : Method
  | DELETE : Method
deriving DecidableEq

/-- src/main.rs lines 179-182: the root route group. -/
def server_routes : List (Method × String × Response) :=
  [(Method.GET, "/", index)]

/-- src/main.rs lines 207-214: the benchmark route group (note it
registers GET / a second time, to the same handler). -/
def benchmark_routes : List (Method × String × Response) :=
  [(Method.GET, "/", index),
   (Method.GET, "/get", bench_get),
   (Method.POST, "/post", bench_post),
   (Method.PUT, "/put", bench_put),
   (Method.DELETE, "/delete", bench_delete)]

/-- src/main.rs lines 125-127: the application is configured with
`server_routes` then `benchmark_routes`; registration order is kept. -/
def routeTable : List (Method × String × Response) :=
  server_routes ++ benchmark_routes

/-- Static dispatch over the route table: the first registered entry whose
method and path both match; `none` means the framework falls through to
its default failure response (404 or 405), it never crashes. -/
def dispatch (meth : Method) (path : String) : Option Response :=
  (routeTable.find? (fun e => decide (e.1 = meth) && decide (e.2.1 = path))).map
    (fun e => e.2.2)

/-- The route table exactly as the specification tables it (section 4.2):
five entries. -/
def specRouteTable : List (Method × String × Response) :=
  [(Method.GET, "/", index),
   (Method.GET, "/get", bench_get),
   (Method.POST, "/post", bench_post),
   (Method.PUT, "/put", bench_put),
   (Method.DELETE, "/delete", bench_delete)]

/-- Dispatch over the route table of the specification. -/
def specDispatch (meth : Method) (path : String) : Option Response :=
  (specRouteTable.find? (fun e => decide (e.1 = meth) && decide (e.2.1 = path))).map
    (fun e => e.2.2)

/-! A JSON syntax checker (RFC 8259 grammar), used to state that the
benchmark bodies are valid JSON. -/

/-- The opening curly brace character. -/
def lcurly : Char := Char.ofNat 123

/-- The closing curly brace character. -/
def rcurly : Char := Char.ofNat 125

/-- Drop leading JSON whitespace (space, tab, line feed, carriage return). -/
def skipWs : List Char → List Char
  | [] => []
  | c :: cs =>
    if c = ' ' ∨ c = '\t' ∨ c = '\n' ∨ c = '\r' then skipWs cs else c :: cs

/-- Whether a character is a hexadecimal digit. -/
def isHexDigit (c : Char) : Bool :=
  c.isDigit ∨ (('a' ≤ c ∧ c ≤ 'f') ∨ ('A' ≤ c ∧ c ≤ 'F'))

/-- Consume the rest of a JSON string, the opening quote already read;
returns the remaining input after the closing quote. -/
def stringRest : List Char → Option (List Char)
  | [] => none
  | '"' :: cs => some cs
  | '\\' :: e :: cs =>
    if e = '"' ∨ e = '\\' ∨ e = '/' ∨ e = 'b' ∨ e = 'f' ∨ e = 'n' ∨ e = 'r' ∨ e = 't' then
      stringRest cs
    else if e = 'u' then
      match cs with
      | a :: b :: c :: d :: cs2 =>
        if isHexDigit a ∧ isHexDigit b ∧ isHexDigit c ∧ isHexDigit d then
          stringRest cs2
        else none
      | _ => none
    else none
  | c :: cs => if c.toNat < 32 then none else stringRest cs

/-- Split off a maximal run of leading ASCII digits. -/
def digitSpan : List Char → List Char × List Char
  | [] => ([], [])
  | c :: cs =>
    if c.isDigit then
      let p := digitSpan cs
      (c :: p.1, p.2)
    else ([], c :: cs)

/-- Consume the exponent part of a JSON number, if present. -/
def expRest (cs : List Char) : Option (List Char) :=
  match cs with
  | [] => some []
  | e :: r =>
    if e = 'e' ∨ e = 'E' then
      let r2 := match r with
        | s :: r1 => if s = '+' ∨ s = '-' then r1 else s :: r1
        | [] => []
      match digitSpan r2 with
      | ([], _) => none
      | (_ :: _, rest) => some rest
    else some (e :: r)

/-- Consume the fraction and exponent parts of a JSON number. -/
def fracExpRest (cs : List Char) : Option (List Char) :=
  match cs with
  | '.' :: r =>
    (match digitSpan r with
     | ([], _) => none
     | (_ :: _, rest) => expRest rest)
  | _ => expRest cs

/-- Consume a JSON number. -/
def numberRest (cs0 : List Char) : Option (List Char) :=
  let cs1 := match cs0 with
    | '-' :: r => r
    | _ => cs0
  match cs1 with
  | [] => none
  | '0' :: r => fracExpRest r
  | c :: r =>
    if c.isDigit then fracExpRest (digitSpan r).2
    else none

mutual

/-- Consume one JSON value; the fuel bounds recursion depth and list
length and only has to be at least the input length. -/
def valueRest : Nat → List Char → Option (List Char)
  | 0, _ => none
  | Nat.succ fuel, cs0 =>
    match skipWs cs0 with
    | [] => none
    | c :: r =>
      if c = '"' then stringRest r
      else if c = lcurly then
        match skipWs r with
        | [] => none
        | c2 :: r2 => if c2 = rcurly then some r2 else membersRest fuel (c2 :: r2)
      else if c = '[' then
        match skipWs r with
        | [] => none
        | c2 :: r2 => if c2 = ']' then some r2 else elementsRest fuel (c2 :: r2)
      else if c = 't' then
        match r with
        | 'r' :: 'u' :: 'e' :: rr => some rr
        | _ => none
      else if c = 'f' then
        match r with
        | 'a' :: 'l' :: 's' :: 'e' :: rr => some rr
        | _ => none
      else if c = 'n' then
        match r with
        | 'u' :: 'l' :: 'l' :: rr => some rr
        | _ => none
      else numberRest (c :: r)

/-- Consume the members of a JSON object after its opening brace, up to and
including the closing brace. -/
def membersRest : Nat → List Char → Option (List Char)
  | 0, _ => none
  | Nat.succ fuel, cs =>
    match skipWs cs with
    | [] => none
    | c :: r =>
      if c = '"' then
        match stringRest r with
        | none => none
        | some r2 =>
          match skipWs r2 with
          | ':' :: r3 =>
            (match valueRest fuel r3 with
             | none => none
             | some r4 =>
               match skipWs r4 with
               | [] => none
               | c5 :: r5 =>
                 if c5 = ',' then membersRest fuel r5
                 else if c5 = rcurly then some r5
                 else none)
          | _ => none
      else none

/-- Consume the elements of a JSON array after its opening bracket, up to
and including the closing bracket. -/
def elementsRest : Nat → List Char → Option (List Char)
  | 0, _ => none
  | Nat.succ fuel, cs =>
    match valueRest fuel cs with
    | none => none
    | some r =>
      match skipWs r with
      | [] => none
      | c :: r2 =>
        if c = ',' then elementsRest fuel r2
        else if c = ']' then some r2
        else none

end

/-- Whether a string is one complete JSON value (with surrounding
whitespace allowed). -/
def jsonValid (s : String) : Bool :=
  match valueRest (s.length + 1) s.toList with
  | some rest => (skipWs rest).isEmpty
  | none => false

/-- Whether `needle` occurs at the start of `hay`. -/
def startsWithL : List Char → List Char → Bool
  | [], _ => true
  | _ :: _, [] => false
  | a :: as, b :: bs => a = b && startsWithL as bs

/-- Whether `needle` occurs anywhere inside `hay`. -/
def containsL (needle : List Char) : List Char → Bool
  | [] => startsWithL needle []
  | c :: cs => startsWithL needle (c :: cs) || containsL needle cs

/-- The page title of the static HTML page. -/
def pageTitle : String := "HTTP(S) Benchmark Server"

/-- Whether the TLS material on disk is unusable: a file fails to open or
to parse, or the key file parses to zero PKCS#8 private keys. -/
def tlsMaterialBad (cert key : FileContent) : Bool :=
  match cert, key with
  | FileContent.pem _, FileContent.pem kb => decide (pkcs8_private_keys kb = [])
  | _, _ => true

/-! Helper lemmas shared by the claim theorems. -/

/-- The key-file resolver is flag-then-env-then-default. -/
theorem resolve_key_file_spec (m : Flags) (env : EnvMap) :
    resolve_key_file m env = specResolveStr m.key (env "KEY_FILE") "key.pem" := by
  unfold resolve_key_file specResolveStr
  cases m.key <;> cases env "KEY_FILE" <;> rfl

/-- The cert-file resolver is flag-then-env-then-default. -/
theorem resolve_cert_file_spec (m : Flags) (env : EnvMap) :
    resolve_cert_file m env = specResolveStr m.cert (env "CERT_FILE") "cert.pem" := by
  unfold resolve_cert_file specResolveStr
  cases m.cert <;> cases env "CERT_FILE" <;> rfl

/-- The bind-IP resolver is flag-then-env-then-default. -/
theorem resolve_server_ip_spec (m : Flags) (env : EnvMap) :
    resolve_server_ip m env = specResolveStr m.ip (env "SERVER_IP") "0.0.0.0" := by
  unfold resolve_server_ip specResolveStr
  cases m.ip <;> cases env "SERVER_IP" <;> rfl

/-- The HTTP-port resolver is flag-then-env-then-default. -/
theorem resolve_http_port_spec (m : Flags) (env : EnvMap) :
    resolve_http_port m env = specResolveNum parseU16 m.port (env "HTTP_PORT") 3000 := by
  unfold resolve_http_port specResolveNum
  cases m.port <;> cases env "HTTP_PORT" <;> rfl

/-- The HTTPS-port resolver is flag-then-env-then-default. -/
theorem resolve_https_port_spec (m : Flags) (env : EnvMap) :
    resolve_https_port m env = specResolveNum parseU16 m.https (env "HTTPS_PORT") 0 := by
  unfold resolve_https_port specResolveNum
  cases m.https <;> cases env "HTTPS_PORT" <;> rfl

/-- The worker-count resolver is flag-then-env-then-default. -/
theorem resolve_workers_spec (m : Flags) (env : EnvMap) :
    resolve_workers m env = specResolveNum parseUsize m.workers (env "WORKERS") 0 := by
  unfold resolve_workers specResolveNum
  cases m.workers <;> cases env "WORKERS" <;> rfl

/-- The max-connections resolver is flag-then-env-then-default. -/
theorem resolve_connections_spec (m : Flags) (env : EnvMap) :
    resolve_connections m env =
      specResolveNum parseUsize m.max_connections (env "CONNECTIONS") 25600 := by
  unfold resolve_connections specResolveNum
  cases m.max_connections <;> cases env "CONNECTIONS" <;> rfl

/-- A successful configuration determines every field through its own
resolver. -/
theorem resolveConfig_ok_fields (m : Flags) (env : EnvMap) (cfg : Config)
    (h : resolveConfig m env = Except.ok cfg) :
    resolve_http_port m env = Except.ok cfg.http_port ∧
    resolve_https_port m env = Except.ok cfg.https_port ∧
    resolve_workers m env = Except.ok cfg.workers ∧
    resolve_connections m env = Except.ok cfg.connections ∧
    resolve_key_file m env = cfg.key_file ∧
    resolve_cert_file m env = cfg.cert_file ∧
    resolve_server_ip m env = cfg.server_ip := by
  unfold resolveConfig at h
  repeat' split at h
  all_goals simp_all
  all_goals simp [← h]

/-- If a spec-side numeric resolution succeeds, then the string of the
effective source (if there is one) parses to the resolved value. -/
theorem specResolveNum_ok_source (parse : String → Except String Nat)
    (flag envVal : Option String) (dflt n : Nat) (s : String)
    (h : specResolveNum parse flag envVal dflt = Except.ok n)
    (hs : effectiveSource flag envVal = some s) :
    parse s = Except.ok n := by
  unfold specResolveNum at h
  unfold effectiveSource at hs
  cases flag <;> cases envVal <;> simp_all

/-- When configuration fails, `main` stops with that error having done
nothing observable. -/
theorem runMain_config_error (m : Flags) (env : EnvMap) (fs : FileSystem)
    (bindOk : String → Bool) (e : String)
    (h : resolveConfig m env = Except.error e) :
    runMain m env fs bindOk = ⟨[], {}, Except.error e, none⟩ := by
  simp [runMain, h]

/-- The builder settings applied by `main` on a successful configuration. -/
theorem runMain_builder (m : Flags) (env : EnvMap) (fs : FileSystem)
    (bindOk : String → Bool) (cfg : Config)
    (h : resolveConfig m env = Except.ok cfg) :
    (runMain m env fs bindOk).builder =
      ⟨if 0 < cfg.workers then some cfg.workers else none,
       if 0 < cfg.connections then some cfg.connections else none⟩ := by
  simp only [runMain, h]
  repeat' split
  all_goals simp_all [ServerBuilder.mk.injEq]

/-! Concrete inputs used by the witnesses and counterexamples. -/

/-- An environment with no variables set. -/
def envNone : EnvMap := fun _ => none

/-- A file system with no files. -/
def fsEmpty : FileSystem := fun _ => FileContent.missing

/-- An operating system accepting every bind. -/
def bindAll : String → Bool := fun _ => true

/-- The configuration resolved when nothing is supplied. -/
def cfgDefault : Config := ⟨"key.pem", "cert.pem", "0.0.0.0", 3000, 0, 0, 25600⟩

/-- A mixed command line: key file, HTTP port and max connections given
as flags, everything else absent. -/
def flagsMixed : Flags :=
  ⟨some "flag_key.pem", none, none, some "8080", none, none, some "0"⟩

/-- A mixed environment: certificate file and HTTPS port set, everything
else unset. -/
def envMixed : EnvMap := fun k =>
  if k = "CERT_FILE" then some "env_cert.pem"
  else if k = "HTTPS_PORT" then some "8443" else none

/-- The configuration resolved from `flagsMixed` and `envMixed`. -/
def cfgMixed : Config :=
  ⟨"flag_key.pem", "env_cert.pem", "0.0.0.0", 8080, 8443, 0, 0⟩

/-! The claim theorems. -/

/-- C1: for every configuration field (key file, cert file, bind IP, HTTP
port, HTTPS port, worker count, max connections), the resolved value
follows the precedence flag > environment variable > default,
independently per field. -/
theorem config_precedence (m : Flags) (env : EnvMap) (cfg : Config)
    (h : resolveConfig m env = Except.ok cfg) :
    cfg.key_file = specResolveStr m.key (env "KEY_FILE") "key.pem" ∧
    cfg.cert_file = specResolveStr m.cert (env "CERT_FILE") "cert.pem" ∧
    cfg.server_ip = specResolveStr m.ip (env "SERVER_IP") "0.0.0.0" ∧
    specResolveNum parseU16 m.port (env "HTTP_PORT") 3000 = Except.ok cfg.http_port ∧
    specResolveNum parseU16 m.https (env "HTTPS_PORT") 0 = Except.ok cfg.https_port ∧
    specResolveNum parseUsize m.workers (env "WORKERS") 0 = Except.ok cfg.workers ∧
    specResolveNum parseUsize m.max_connections (env "CONNECTIONS") 25600 =
      Except.ok cfg.connections := by
  obtain ⟨h1, h2, h3, h4, h5, h6, h7⟩ := resolveConfig_ok_fields m env cfg h
  refine ⟨?_, ?_, ?_, ?_, ?_, ?_, ?_⟩
  · rw [← h5]; exact resolve_key_file_spec m env
  · rw [← h6]; exact resolve_cert_file_spec m env
  · rw [← h7]; exact resolve_server_ip_spec m env
  · rw [← resolve_http_port_spec]; exact h1
  · rw [← resolve_https_port_spec]; exact h2
  · rw [← resolve_workers_spec]; exact h3
  · rw [← resolve_connections_spec]; exact h4

/-- Witness for C1: flags beat the environment for the key file, the
HTTP port and the max connections, the environment beats the default for
the cert file and the HTTPS port, and the rest fall to defaults. -/
theorem config_precedence_witness :
    cfgMixed.key_file = specResolveStr flagsMixed.key (envMixed "KEY_FILE") "key.pem" ∧
    cfgMixed.cert_file = specResolveStr flagsMixed.cert (envMixed "CERT_FILE") "cert.pem" ∧
    cfgMixed.server_ip = specResolveStr flagsMixed.ip (envMixed "SERVER_IP") "0.0.0.0" ∧
    specResolveNum parseU16 flagsMixed.port (envMixed "HTTP_PORT") 3000 =
      Except.ok cfgMixed.http_port ∧
    specResolveNum parseU16 flagsMixed.https (envMixed "HTTPS_PORT") 0 =
      Except.ok cfgMixed.https_port ∧
    specResolveNum parseUsize flagsMixed.workers (envMixed "WORKERS") 0 =
      Except.ok cfgMixed.workers ∧
    specResolveNum parseUsize flagsMixed.max_connections (envMixed "CONNECTIONS") 25600 =
      Except.ok cfgMixed.connections :=
  config_precedence flagsMixed envMixed cfgMixed (by rfl)

/-- C2: when neither the corresponding flag nor environment variable is
supplied, the resolved defaults are exactly bind IP 0.0.0.0, HTTP port
3000, HTTPS port 0, key file key.pem, cert file cert.pem, max connections
25600 and worker count 0. -/
theorem resolved_defaults (m : Flags) (env : EnvMap) (cfg : Config)
    (h : resolveConfig m env = Except.ok cfg) :
    (m.ip = none → env "SERVER_IP" = none → cfg.server_ip = "0.0.0.0") ∧
    (m.port = none → env "HTTP_PORT" = none → cfg.http_port = 3000) ∧
    (m.https = none → env "HTTPS_PORT" = none → cfg.https_port = 0) ∧
    (m.key = none → env "KEY_FILE" = none → cfg.key_file = "key.pem") ∧
    (m.cert = none → env "CERT_FILE" = none → cfg.cert_file = "cert.pem") ∧
    (m.max_connections = none → env "CONNECTIONS" = none → cfg.connections = 25600) ∧
    (m.workers = none → env "WORKERS" = none → cfg.workers = 0) := by
  obtain ⟨h1, h2, h3, h4, h5, h6, h7⟩ := resolveConfig_ok_fields m env cfg h
  refine ⟨fun ha hb => ?_, fun ha hb => ?_, fun ha hb => ?_, fun ha hb => ?_,
    fun ha hb => ?_, fun ha hb => ?_, fun ha hb => ?_⟩
  · simp [resolve_server_ip, ha, hb, DEFAULT_IP] at h7; exact h7.symm
  · simp [resolve_http_port, ha, hb, DEFAULT_PORT] at h1; exact h1.symm
  · simp [resolve_https_port, ha, hb] at h2; exact h2.symm
  · simp [resolve_key_file, ha, hb, DEFAULT_KEY_FILE] at h5; exact h5.symm
  · simp [resolve_cert_file, ha, hb, DEFAULT_CERT_FILE] at h6; exact h6.symm
  · simp [resolve_connections, ha, hb, DEFAULT_CONNECTIONS] at h4; exact h4.symm
  · simp [resolve_workers, ha, hb] at h3; exact h3.symm

/-- Witness for C2: with nothing supplied, the resolved configuration is
exactly the documented defaults. -/
theorem resolved_defaults_witness :
    cfgDefault.server_ip = "0.0.0.0" ∧ cfgDefault.http_port = 3000 ∧
    cfgDefault.https_port = 0 ∧ cfgDefault.key_file = "key.pem" ∧
    cfgDefault.cert_file = "cert.pem" ∧ cfgDefault.connections = 25600 ∧
    cfgDefault.workers = 0 := by
  obtain ⟨p1, p2, p3, p4, p5, p6, p7⟩ :=
    resolved_defaults Flags.none_ envNone cfgDefault (by rfl)
  exact ⟨p1 rfl rfl, p2 rfl rfl, p3 rfl rfl, p4 rfl rfl, p5 rfl rfl,
    p6 rfl rfl, p7 rfl rfl⟩

/-- C3: every registered handler returns status 200 unconditionally;
GET / returns text/html; charset=utf-8 with the page title in its body;
the four benchmark handlers return application/json with their fixed
valid-JSON bodies (each handler is a constant, so its response is
byte-for-byte identical on every call). -/
theorem handlers_fixed_responses :
    index.status = 200 ∧
    index.contentType = "text/html; charset=utf-8" ∧
    containsL pageTitle.toList index.body.toList = true ∧
    bench_get.status = 200 ∧ bench_get.contentType = "application/json" ∧
    jsonValid bench_get.body = true ∧
    bench_post.status = 200 ∧ bench_post.contentType = "application/json" ∧
    jsonValid bench_post.body = true ∧
    bench_put.status = 200 ∧ bench_put.contentType = "application/json" ∧
    jsonValid bench_put.body = true ∧
    bench_delete.status = 200 ∧ bench_delete.contentType = "application/json" ∧
    jsonValid bench_delete.body = true := by
  refine ⟨rfl, rfl, by decide, rfl, rfl, by decide, rfl, rfl, by decide,
    rfl, rfl, by decide, rfl, rfl, by decide⟩

/-- C4: if the resolved HTTPS port is zero, no TLS listener is started and
neither the certificate file nor the key file is opened or read. -/
theorem no_tls_when_https_zero (m : Flags) (env : EnvMap) (fs : FileSystem)
    (bindOk : String → Bool) (cfg : Config)
    (h : resolveConfig m env = Except.ok cfg) (hz : cfg.https_port = 0) :
    ((runMain m env fs bindOk).effects.all
      (fun e => !(Effect.isOpen e) && !(Effect.isTlsBind e))) = true := by
  simp only [runMain, h]
  split
  · simp [hz, Effect.isOpen, Effect.isTlsBind]
  · simp

/-- Witness for C4: with nothing supplied the HTTPS port resolves to zero
and the startup trace opens no file and binds no TLS listener. -/
theorem no_tls_when_https_zero_witness :
    ((runMain Flags.none_ envNone fsEmpty bindAll).effects.all
      (fun e => !(Effect.isOpen e) && !(Effect.isTlsBind e))) = true :=
  no_tls_when_https_zero Flags.none_ envNone fsEmpty bindAll cfgDefault (by rfl) rfl

/-- C5: if the string selected for any numeric field (flag first, else
environment variable) does not parse as the declared integer type, startup
fails fatally: `main` exits with an error and no listener is started. -/
theorem numeric_parse_failure_fatal (m : Flags) (env : EnvMap) (fs : FileSystem)
    (bindOk : String → Bool) (s : String)
    (h : (effectiveSource m.port (env "HTTP_PORT") = some s ∧
            exceptOk (parseU16 s) = false) ∨
         (effectiveSource m.https (env "HTTPS_PORT") = some s ∧
            exceptOk (parseU16 s) = false) ∨
         (effectiveSource m.workers (env "WORKERS") = some s ∧
            exceptOk (parseUsize s) = false) ∨
         (effectiveSource m.max_connections (env "CONNECTIONS") = some s ∧
            exceptOk (parseUsize s) = false)) :
    (runMain m env fs bindOk).effects = [] ∧
    exceptOk (runMain m env fs bindOk).outcome = false := by
  cases hr : resolveConfig m env with
  | ok cfg =>
    exfalso
    obtain ⟨h1, h2, h3, h4, _, _, _⟩ := resolveConfig_ok_fields m env cfg hr
    rw [resolve_http_port_spec] at h1
    rw [resolve_https_port_spec] at h2
    rw [resolve_workers_spec] at h3
    rw [resolve_connections_spec] at h4
    rcases h with ⟨hs, hp⟩ | ⟨hs, hp⟩ | ⟨hs, hp⟩ | ⟨hs, hp⟩
    · rw [specResolveNum_ok_source parseU16 m.port (env "HTTP_PORT")
        3000 cfg.http_port s h1 hs] at hp
      simp [exceptOk] at hp
    · rw [specResolveNum_ok_source parseU16 m.https (env "HTTPS_PORT")
        0 cfg.https_port s h2 hs] at hp
      simp [exceptOk] at hp
    · rw [specResolveNum_ok_source parseUsize m.workers (env "WORKERS")
        0 cfg.workers s h3 hs] at hp
      simp [exceptOk] at hp
    · rw [specResolveNum_ok_source parseUsize m.max_connections (env "CONNECTIONS")
        25600 cfg.connections s h4 hs] at hp
      simp [exceptOk] at hp
  | error e =>
    rw [runMain_config_error m env fs bindOk e hr]
    exact ⟨rfl, rfl⟩

/-- A command line whose HTTP port flag is not a number. -/
def flagsBadPort : Flags :=
  ⟨none, none, none, some "not_a_number", none, none, none⟩

/-- Witness for C5: an unparseable HTTP port flag aborts startup with no
listener started. -/
theorem numeric_parse_failure_fatal_witness :
    (runMain flagsBadPort envNone fsEmpty bindAll).effects = [] ∧
    exceptOk (runMain flagsBadPort envNone fsEmpty bindAll).outcome = false :=
  numeric_parse_failure_fatal flagsBadPort envNone fsEmpty bindAll "not_a_number"
    (Or.inl ⟨rfl, by decide⟩)

/-- C8: a resolved worker count of 0 or max-connections of 0 is never
passed to the runtime as a literal zero capacity: each setter is applied
exactly when the resolved value is strictly positive. -/
theorem zero_capacity_not_passed (m : Flags) (env : EnvMap) (fs : FileSystem)
    (bindOk : String → Bool) (cfg : Config)
    (h : resolveConfig m env = Except.ok cfg) :
    (runMain m env fs bindOk).builder.workersSetting =
      (if 0 < cfg.workers then some cfg.workers else none) ∧
    (runMain m env fs bindOk).builder.maxConnectionsSetting =
      (if 0 < cfg.connections then some cfg.connections else none) := by
  rw [runMain_builder m env fs bindOk cfg h]
  exact ⟨rfl, rfl⟩

/-- A command line passing the worker count 0 explicitly. -/
def flagsZeroWorkers : Flags :=
  ⟨none, none, none, none, none, some "0", none⟩

/-- Witness for C8: an explicit worker count of 0 leaves the workers
setter unapplied while the default max connections (25600) is applied. -/
theorem zero_capacity_not_passed_witness :
    (runMain flagsZeroWorkers envNone fsEmpty bindAll).builder.workersSetting = none ∧
    (runMain flagsZeroWorkers envNone fsEmpty bindAll).builder.maxConnectionsSetting =
      some 25600 := by
  have h := zero_capacity_not_passed flagsZeroWorkers envNone fsEmpty bindAll
    cfgDefault (by rfl)
  simpa using h

/-- A command line enabling the HTTPS listener on port 8443. -/
def flagsHttps : Flags :=
  ⟨none, none, none, none, some "8443", none, none⟩

/-- The configuration resolved from `flagsHttps` with an empty
environment. -/
def cfgHttps : Config :=
  ⟨"key.pem", "cert.pem", "0.0.0.0", 3000, 8443, 0, 25600⟩

/-- C6 counterexample: with HTTPS enabled and the certificate file
missing, startup does fail, but the plaintext listener has already been
bound when the TLS failure is hit (src/main.rs binds HTTP on line 143 and
only opens the TLS files on lines 156-157), refuting that startup fails
before any listener is bound. -/
theorem tls_failure_after_http_bind_cex :
    exceptOk (runMain flagsHttps envNone fsEmpty bindAll).outcome = false ∧
    ((runMain flagsHttps envNone fsEmpty bindAll).effects.any Effect.isHttpBind) = true := by
  decide

/-- C6 (amended): if HTTPS is enabled and the certificate or key file is
missing or malformed (including zero usable keys), startup fails: the
process exits with an error, the TLS listener is never bound and the
server never enters its serving loop; the plaintext listener, however,
has already been bound at that point and is torn down only by the process
exiting. -/
theorem tls_failure_stops_startup (m : Flags) (env : EnvMap) (fs : FileSystem)
    (bindOk : String → Bool) (cfg : Config)
    (h : resolveConfig m env = Except.ok cfg)
    (hnz : cfg.https_port ≠ 0)
    (hb : bindOk (cfg.server_ip ++ ":" ++ toString cfg.http_port) = true)
    (hbad : tlsMaterialBad (fs cfg.cert_file) (fs cfg.key_file) = true) :
    exceptOk (runMain m env fs bindOk).outcome = false ∧
    ((runMain m env fs bindOk).effects.all
      (fun e => !(Effect.isTlsBind e) && !(Effect.isRun e))) = true ∧
    Effect.bindHttp (cfg.server_ip ++ ":" ++ toString cfg.http_port) ∈
      (runMain m env fs bindOk).effects := by
  cases hc : fs cfg.cert_file <;> cases hk : fs cfg.key_file <;>
    simp_all [runMain, tlsMaterialBad, pemSections, exceptOk,
      Effect.isTlsBind, Effect.isRun]

/-- Witness for C6: HTTPS on port 8443 with both TLS files missing. -/
theorem tls_failure_stops_startup_witness :
    exceptOk (runMain flagsHttps envNone fsEmpty bindAll).outcome = false ∧
    ((runMain flagsHttps envNone fsEmpty bindAll).effects.all
      (fun e => !(Effect.isTlsBind e) && !(Effect.isRun e))) = true ∧
    Effect.bindHttp (cfgHttps.server_ip ++ ":" ++ toString cfgHttps.http_port) ∈
      (runMain flagsHttps envNone fsEmpty bindAll).effects :=
  tls_failure_stops_startup flagsHttps envNone fsEmpty bindAll cfgHttps
    (by rfl) (by decide) (by rfl) (by rfl)

/-- A file system whose certificate file parses and whose key file holds
only a PKCS#1 section (tag RSA PRIVATE KEY). -/
def fsRsaOnly : FileSystem := fun p =>
  if p = "key.pem" then FileContent.pem [⟨"RSA PRIVATE KEY", [48, 1, 2]⟩]
  else FileContent.pem [⟨"CERTIFICATE", [48, 3]⟩]

/-- C7 counterexample: when the key file yields zero PKCS#8 keys the fatal
error text produced by src/main.rs line 163 is
"Could not locate PKCS 8 private keys.", not the claimed
"Could not locate private key". -/
theorem key_error_message_cex :
    (runMain flagsHttps envNone fsRsaOnly bindAll).outcome =
      Except.error "Could not locate PKCS 8 private keys." ∧
    "Could not locate PKCS 8 private keys." ≠ "Could not locate private key" :=
  ⟨rfl, by decide⟩

/-- C7 (amended): when TLS is enabled and both files parse, zero usable
private keys is the fatal error "Could not locate PKCS 8 private keys."
(no retry); otherwise the TLS server context is built requiring no client
certificate, from the first parsed key (additional keys are ignored) and
the full certificate chain exactly as parsed. -/
theorem tls_key_selection (m : Flags) (env : EnvMap) (fs : FileSystem)
    (bindOk : String → Bool) (cfg : Config) (cb kb : List PemBlock)
    (h : resolveConfig m env = Except.ok cfg)
    (hnz : cfg.https_port ≠ 0)
    (hb : bindOk (cfg.server_ip ++ ":" ++ toString cfg.http_port) = true)
    (hc : fs cfg.cert_file = FileContent.pem cb)
    (hk : fs cfg.key_file = FileContent.pem kb) :
    (pkcs8_private_keys kb = [] ∧
      (runMain m env fs bindOk).outcome =
        Except.error "Could not locate PKCS 8 private keys.") ∨
    (pkcs8_private_keys kb ≠ [] ∧
      (runMain m env fs bindOk).tlsConfig =
        some ⟨false, certsOf cb, (pkcs8_private_keys kb).headD []⟩) := by
  cases hkeys : pkcs8_private_keys kb with
  | nil =>
    refine Or.inl ⟨rfl, ?_⟩
    simp [runMain, h, hb, hc, hk, hnz, pemSections, hkeys]
  | cons k rest =>
    refine Or.inr ⟨by simp [hkeys], ?_⟩
    simp only [runMain, h, hb, hc, hk, pemSections, hkeys, List.headD_cons]
    simp [hnz]
    split <;> rfl

/-- A file system whose certificate file holds two certificates and whose
key file holds two PKCS#8 sections. -/
def fsPkcs8 : FileSystem := fun p =>
  if p = "key.pem" then
    FileContent.pem [⟨"PRIVATE KEY", [48, 9]⟩, ⟨"PRIVATE KEY", [48, 8]⟩]
  else FileContent.pem [⟨"CERTIFICATE", [48, 3]⟩, ⟨"CERTIFICATE", [48, 4]⟩]

/-- Witness for C7 (amended): with two PKCS#8 keys on disk the context is
built from the first one and from both certificates, with no client
authentication. -/
theorem tls_key_selection_witness :
    (pkcs8_private_keys [⟨"PRIVATE KEY", [48, 9]⟩, ⟨"PRIVATE KEY", [48, 8]⟩] = [] ∧
      (runMain flagsHttps envNone fsPkcs8 bindAll).outcome =
        Except.error "Could not locate PKCS 8 private keys.") ∨
    (pkcs8_private_keys [⟨"PRIVATE KEY", [48, 9]⟩, ⟨"PRIVATE KEY", [48, 8]⟩] ≠ [] ∧
      (runMain flagsHttps envNone fsPkcs8 bindAll).tlsConfig =
        some ⟨false, certsOf [⟨"CERTIFICATE", [48, 3]⟩, ⟨"CERTIFICATE", [48, 4]⟩],
          (pkcs8_private_keys
            [⟨"PRIVATE KEY", [48, 9]⟩, ⟨"PRIVATE KEY", [48, 8]⟩]).headD []⟩) :=
  tls_key_selection flagsHttps envNone fsPkcs8 bindAll cfgHttps
    [⟨"CERTIFICATE", [48, 3]⟩, ⟨"CERTIFICATE", [48, 4]⟩]
    [⟨"PRIVATE KEY", [48, 9]⟩, ⟨"PRIVATE KEY", [48, 8]⟩]
    (by rfl) (by decide) (by rfl) (by rfl) (by rfl)

/-- C9: dispatch over the registered routes agrees everywhere with
dispatch over the five-entry table of the specification (so an unmatched
method/path pair, such as POST /get, falls through to the router default
failure response), and the distinct registered (method, path) entries are
exactly those five; the table is a constant, populated once. -/
theorem route_table_exact :
    (∀ meth path, dispatch meth path = specDispatch meth path) ∧
    (routeTable.map (fun e => (e.1, e.2.1))).dedup =
      specRouteTable.map (fun e => (e.1, e.2.1)) := by
  constructor
  · intro meth path
    by_cases hm : Method.GET = meth ∧ "/" = path
    · obtain ⟨h1, h2⟩ := hm
      subst h1; subst h2
      rfl
    · have hneg : ¬((fun e : Method × String × Response =>
          decide (e.1 = meth) && decide (e.2.1 = path))
            (Method.GET, "/", index) = true) := by
        simp only [Bool.and_eq_true, decide_eq_true_eq]
        exact hm
      unfold dispatch specDispatch
      rw [show routeTable = (Method.GET, "/", index) :: specRouteTable from rfl,
        List.find?_cons_of_neg specRouteTable hneg]
  · decide

/-- C10: key loading recognizes only PKCS#8 sections (PEM tag
PRIVATE KEY): a key file whose sections all carry another tag, such as
RSA PRIVATE KEY (PKCS#1) or EC PRIVATE KEY (SEC1), yields zero keys and
startup fails with the zero-keys fatal error. -/
theorem pkcs8_only_keys (m : Flags) (env : EnvMap) (fs : FileSystem)
    (bindOk : String → Bool) (cfg : Config) (cb kb : List PemBlock)
    (h : resolveConfig m env = Except.ok cfg)
    (hnz : cfg.https_port ≠ 0)
    (hb : bindOk (cfg.server_ip ++ ":" ++ toString cfg.http_port) = true)
    (hc : fs cfg.cert_file = FileContent.pem cb)
    (hk : fs cfg.key_file = FileContent.pem kb)
    (htags : ∀ b ∈ kb, b.tag = "RSA PRIVATE KEY" ∨ b.tag = "EC PRIVATE KEY") :
    pkcs8_private_keys kb = [] ∧
    (runMain m env fs bindOk).outcome =
      Except.error "Could not locate PKCS 8 private keys." := by
  have hempty : pkcs8_private_keys kb = [] := by
    unfold pkcs8_private_keys
    have hfilter : kb.filter (fun b => b.tag = "PRIVATE KEY") = [] := by
      rw [List.filter_eq_nil_iff]
      intro b hbmem
      rcases htags b hbmem with ht | ht <;> simp [ht]
    rw [hfilter]
    rfl
  refine ⟨hempty, ?_⟩
  simp [runMain, h, hb, hc, hk, hnz, pemSections, hempty]

/-- Witness for C10: a key file holding a single PKCS#1 (RSA) section is
treated as containing zero keys, and startup fails with the fatal error. -/
theorem pkcs8_only_keys_witness :
    pkcs8_private_keys [⟨"RSA PRIVATE KEY", [48, 1, 2]⟩] = [] ∧
    (runMain flagsHttps envNone fsRsaOnly bindAll).outcome =
      Except.error "Could not locate PKCS 8 private keys." :=
  pkcs8_only_keys flagsHttps envNone fsRsaOnly bindAll cfgHttps
    [⟨"CERTIFICATE", [48, 3]⟩] [⟨"RSA PRIVATE KEY", [48, 1, 2]⟩]
    (by rfl) (by decide) (by rfl) (by rfl) (by rfl) (by decide)

end BenchServer
